import Mathlib

/-!
Verification of the user-state assembly and authentication subsystem of the
express-react-fullstack organizer backend.

The data model and operations below are shallow embeddings of the JavaScript
source.  `assembleUserState` embeds `src/server/utility.js`; the store is a
record of the four document collections, and the MongoDB query operators used
by the source (`find` with an equality filter, `find` with an `$in` filter,
`findOne`) are embedded as list filters / first-match lookups.  JavaScript
dynamic values that matter for control flow (truthiness of `user.id`, the
`undefined` produced by reading `.owner` off an array) are modelled by a small
value type `JsVal`.
-/

namespace Organizer

/-- A JavaScript value, restricted to the shapes that reach the truthiness
checks of this subsystem. -/
inductive JsVal where
  | null
  | undefined
  | bool (b : Bool)
  | num (n : Int)
  | str (s : String)
  deriving DecidableEq, Repr

namespace JsVal

/-- JavaScript truthiness: `null`, `undefined`, `false`, `0` and `""` are
falsy, everything else here is truthy. -/
def truthy : JsVal → Bool
  | .null => false
  | .undefined => false
  | .bool b => b
  | .num n => n != 0
  | .str s => s != ""

end JsVal

/-- A task document: `{id, name, isComplete, owner, group?}`.  Only the fields
read by the assembler are kept alongside the descriptive ones. -/
structure Task where
  id : String
  name : String
  isComplete : Bool
  owner : String
  group : Option String
  deriving DecidableEq, Repr

/-- A comment document: `{id, task, owner, content}`. -/
structure Comment where
  id : String
  task : String
  owner : String
  content : String
  deriving DecidableEq, Repr

/-- A user document: `{id, name, passwordHash}`. -/
structure User where
  id : String
  name : String
  passwordHash : String
  deriving DecidableEq, Repr

/-- A group document: `{id, owner, name}`. -/
structure Group where
  id : String
  owner : String
  name : String
  deriving DecidableEq, Repr

/-- The document store: the four named collections used by the subsystem. -/
structure Store where
  tasks : List Task
  comments : List Comment
  users : List User
  groups : List Group
  deriving DecidableEq, Repr

/-- The `session` part of the assembled state:
`{authenticated: "AUTHENTICATED", id: user.id}`. -/
structure Session where
  authenticated : String
  id : JsVal
  deriving DecidableEq, Repr

/-- The aggregate view returned by `assembleUserState`. -/
structure UserState where
  session : Session
  groups : List Group
  tasks : List Task
  users : List User
  comments : List Comment
  deriving DecidableEq, Repr

/-- The argument to `assembleUserState`: `null`, `undefined`, or an object.
An object lacking an `id` field reads it as `JsVal.undefined`. -/
inductive UserInput where
  | jsNull
  | jsUndefined
  | obj (id : JsVal) (name : Option String)
  deriving DecidableEq, Repr

/-- `db.collection("tasks").find({owner: user.id}).toArray()`. -/
def tasksQuery (store : Store) (idv : JsVal) : List Task :=
  store.tasks.filter (fun t => JsVal.str t.owner == idv)

/-- `db.collection("comments").find({task: {$in: taskIds}}).toArray()`:
every comment whose `task` field is a member of the filter list. -/
def commentsQuery (store : Store) (taskIds : List String) : List Comment :=
  store.comments.filter (fun c => taskIds.contains c.task)

/-- An element of the array literal `[...tasks, comments]`: either one task
object spread in, or the `comments` array itself as a single element. -/
inductive OwnerSource where
  | taskElem (t : Task)
  | commentsArray (cs : List Comment)
  deriving DecidableEq, Repr

/-- Reading `.owner` off an element of `[...tasks, comments]`: a task object
yields its owner string, while the comments array — an array has no `owner`
property — yields `undefined`. -/
def ownerOf : OwnerSource → JsVal
  | .taskElem t => .str t.owner
  | .commentsArray _ => .undefined

/-- The array literal `[...tasks, comments]`: each task spread in as its own
element, followed by the comments array as one element. -/
def spreadTasksComments (tasks : List Task) (comments : List Comment) :
    List OwnerSource :=
  tasks.map .taskElem ++ [.commentsArray comments]

/-- `[...tasks, comments].map(x => x.owner).filter(Boolean)`: the
owner-identifier list fed to the related-users query. -/
def userOwners (tasks : List Task) (comments : List Comment) : List JsVal :=
  ((spreadTasksComments tasks comments).map ownerOf).filter JsVal.truthy

/-- `db.collection("users").find({id: {$in: userOwners}}).toArray()`: each
matching document is returned once, regardless of how many times its id
occurs in the filter list (MongoDB `$in` semantics). -/
def usersInQuery (store : Store) (owners : List JsVal) : List User :=
  store.users.filter (fun u => owners.contains (JsVal.str u.id))

/-- `db.collection("users").findOne({id: user.id})`: first matching document,
or `null` when there is none. -/
def findOneUserById (store : Store) (idv : JsVal) : Option User :=
  store.users.find? (fun u => JsVal.str u.id == idv)

/-- `[ownUser, ...additionalUsers].filter(Boolean)`: the own-document lookup
may have produced `null`, which the truthiness filter removes; the documents
from the membership query are objects and always kept. -/
def assembleUsersList (ownUser : Option User) (additionalUsers : List User) :
    List User :=
  (ownUser :: additionalUsers.map some).filterMap id

/-- `db.collection("groups").find({owner: user.id}).toArray()`. -/
def groupsQuery (store : Store) (idv : JsVal) : List Group :=
  store.groups.filter (fun g => JsVal.str g.owner == idv)

/-- The error message thrown by `assembleUserState` on invalid input. -/
def userRequiredMsg : String := "User and user.id are required"

/-- A store operation, recorded so that "no query was issued" and "the query
was still issued" are statable facts about a run of the assembler or the
authentication service. -/
inductive StoreOp where
  | findTasks (filterOwner : JsVal)
  | findComments (filterTaskIds : List String)
  | findUsersIn (filterIds : List JsVal)
  | findOneUserId (idv : JsVal)
  | findGroups (filterOwner : JsVal)
  deriving DecidableEq, Repr

/-- Embedding of `assembleUserState` from `src/server/utility.js`: validates
the argument (`if (!user || !user.id) throw`), then queries tasks, comments,
the related users, the own user document and the groups, and assembles the
`UserState` record.  The second component records the store operations the
run issued, in the order the source awaits them; a validation failure issues
none (the throw happens before `connectDB`). -/
def assembleUserStateTraced (store : Store) (user : UserInput) :
    Except String UserState × List StoreOp :=
  match user with
  | .jsNull => (.error userRequiredMsg, [])
  | .jsUndefined => (.error userRequiredMsg, [])
  | .obj idv _ =>
    if !idv.truthy then (.error userRequiredMsg, [])
    else
      let tasks := tasksQuery store idv
      let taskIds := tasks.map Task.id
      let comments := commentsQuery store taskIds
      let owners := userOwners tasks comments
      let additionalUsers := usersInQuery store owners
      let users := assembleUsersList (findOneUserById store idv) additionalUsers
      (.ok {
        session := { authenticated := "AUTHENTICATED", id := idv }
        groups := groupsQuery store idv
        tasks := tasks
        users := users
        comments := comments
      },
      [.findTasks idv, .findComments taskIds, .findUsersIn owners,
       .findOneUserId idv, .findGroups idv])

/-- `assembleUserState` proper: the value returned to the caller. -/
def assembleUserState (store : Store) (user : UserInput) :
    Except String UserState :=
  (assembleUserStateTraced store user).1

/-! ## Credential Manager and Authentication Service

`authenticate.js` is imported by the server entry point and exercised by its
test suite, but the file itself is not among the provided sources, so the
definitions below are modelled from the specification (§4.2–§4.3). -/

/-- Modelled from the spec: `hashPassword` of the Credential Manager (§4.2) —
the source file `authenticate.js` (which applies the `md5` digest) is missing
from the provided sources.  A deterministic one-way digest standing in for
the fast unsalted hash; only determinism and hash-equality comparison are
relied on. -/
def hashPassword (plaintext : String) : String :=
  toString (plaintext.data.foldl
    (fun a c => (a * 131 + c.toNat) % 4294967296) 5381)

/-- Modelled from the spec (§4.2): `verifyPassword(plaintext, storedHash)` is
`hashPassword(plaintext) == storedHash`. -/
def verifyPassword (plaintext storedHash : String) : Bool :=
  hashPassword plaintext == storedHash

/-- The parsed body of an authentication/registration request; a field absent
from the request body is `none` (JavaScript `undefined`). -/
structure AuthBody where
  username : Option String
  password : Option String
  deriving DecidableEq, Repr

/-- One entry of the in-memory token store: `{token, userID}`. -/
structure TokenPair where
  token : String
  userID : String
  deriving DecidableEq, Repr

/-- `findOne({name: username})` on the users collection: the first document
whose `name` equals the supplied username; a missing username matches no
document (every stored user has a string name). -/
def findOneUserByName (store : Store) (username : Option String) :
    Option User :=
  store.users.find? (fun u => some u.name == username)

/-- The password check of the login handler: the hash of the supplied
password compared against the stored hash; an absent password never
verifies. -/
def checkPassword (password : Option String) (storedHash : String) : Bool :=
  match password with
  | some p => verifyPassword p storedHash
  | none => false

/-- The outcome of `POST /authenticate`: the failures are all sent with a
500-equivalent status and the shown message; `success` is the 200 response
`{token, state}`. -/
inductive LoginResult where
  | nullBody
  | userNotFound
  | passwordIncorrect
  | serverError (msg : String)
  | success (token : String) (state : UserState)
  deriving DecidableEq, Repr

/-- Modelled from the spec: the `/authenticate` handler of `authenticate.js`
(§4.3 Login) is missing from the provided sources — only its tests and its
importer are present.  `freshToken` stands for the `uuid()` call; the result
is returned together with the token store after the call.  Flow: null body →
`"Request body is null"`; user lookup by exact name, miss → `"User not
found"`; hash mismatch → `"Password incorrect"`; otherwise the token is
appended to the token store and the assembled state is returned. -/
def login (store : Store) (body : Option AuthBody) (freshToken : String)
    (tokens : List TokenPair) : LoginResult × List TokenPair :=
  match body with
  | none => (.nullBody, tokens)
  | some b =>
    match findOneUserByName store b.username with
    | none => (.userNotFound, tokens)
    | some u =>
      if checkPassword b.password u.passwordHash then
        let tokens2 := tokens ++ [{ token := freshToken, userID := u.id }]
        match assembleUserState store (.obj (.str u.id) (some u.name)) with
        | .ok st => (.success freshToken st, tokens2)
        | .error e => (.serverError e, tokens2)
      else (.passwordIncorrect, tokens)

/-- The duplicate-registration message. -/
def duplicateUserMsg : String := "A user with that account name already exists."

/-- The outcome of `POST /user/create`: `conflict` carries the message of the
`{message: ...}` error body; `created` is the 200 response `{userID, state}`. -/
inductive RegisterResult where
  | conflict (message : String)
  | created (userID : String) (state : UserState)
  | serverError (msg : String)
  deriving DecidableEq, Repr

/-- Modelled from the spec: the `/user/create` handler of `authenticate.js`
(§4.3 Register) is missing from the provided sources — only its tests are
present.  `userId` and `groupId` stand for the two `uuid()` calls; the
result is returned together with the store after the call.  Flow: duplicate
name check first (conflict leaves the store untouched); then the user
document is inserted, the default `"To Do"` group is inserted, and the
assembler is called with the minimal `{id, name}` object. -/
def register (store : Store) (username password : String)
    (userId groupId : String) : RegisterResult × Store :=
  match findOneUserByName store (some username) with
  | some _ => (.conflict duplicateUserMsg, store)
  | none =>
    let newUser : User :=
      { id := userId, name := username, passwordHash := hashPassword password }
    let store1 : Store := { store with users := store.users ++ [newUser] }
    let newGroup : Group := { id := groupId, owner := userId, name := "To Do" }
    let store2 : Store := { store1 with groups := store1.groups ++ [newGroup] }
    match assembleUserState store2 (.obj (.str userId) (some username)) with
    | .ok st => (.created userId st, store2)
    | .error e => (.serverError e, store2)

/-! ## Helper lemmas -/

/-- Unfolding lemma: on a truthy id the assembler issues the five queries in
source order and succeeds with the record built from them. -/
lemma assembleUserStateTraced_obj_eq (store : Store) (idv : JsVal)
    (nm : Option String) (h : idv.truthy = true) :
    assembleUserStateTraced store (.obj idv nm) =
      (.ok {
        session := { authenticated := "AUTHENTICATED", id := idv }
        groups := groupsQuery store idv
        tasks := tasksQuery store idv
        users := assembleUsersList (findOneUserById store idv)
          (usersInQuery store (userOwners (tasksQuery store idv)
            (commentsQuery store ((tasksQuery store idv).map Task.id))))
        comments := commentsQuery store ((tasksQuery store idv).map Task.id) },
      [.findTasks idv,
       .findComments ((tasksQuery store idv).map Task.id),
       .findUsersIn (userOwners (tasksQuery store idv)
         (commentsQuery store ((tasksQuery store idv).map Task.id))),
       .findOneUserId idv, .findGroups idv]) := by
  simp [assembleUserStateTraced, h]

/-- Unfolding lemma for the returned value on a truthy id. -/
lemma assembleUserState_obj_eq (store : Store) (idv : JsVal)
    (nm : Option String) (h : idv.truthy = true) :
    assembleUserState store (.obj idv nm) =
      .ok {
        session := { authenticated := "AUTHENTICATED", id := idv }
        groups := groupsQuery store idv
        tasks := tasksQuery store idv
        users := assembleUsersList (findOneUserById store idv)
          (usersInQuery store (userOwners (tasksQuery store idv)
            (commentsQuery store ((tasksQuery store idv).map Task.id))))
        comments := commentsQuery store ((tasksQuery store idv).map Task.id) } := by
  rw [assembleUserState, assembleUserStateTraced_obj_eq store idv nm h]

/-- A falsy id is rejected with the validation error. -/
lemma assembleUserState_not_truthy (store : Store) (idv : JsVal)
    (nm : Option String) (h : idv.truthy = false) :
    assembleUserState store (.obj idv nm) = .error userRequiredMsg := by
  simp [assembleUserState, assembleUserStateTraced, h]

/-- Inversion: a successful call came from an object input with a truthy id,
and the session records exactly that id. -/
lemma assembleUserState_ok_inv (store : Store) (u : UserInput) (st : UserState)
    (hok : assembleUserState store u = .ok st) :
    ∃ idv nm, u = .obj idv nm ∧ idv.truthy = true ∧
      st.session = { authenticated := "AUTHENTICATED", id := idv } := by
  cases u with
  | jsNull => simp [assembleUserState, assembleUserStateTraced] at hok
  | jsUndefined => simp [assembleUserState, assembleUserStateTraced] at hok
  | obj idv nm =>
    by_cases h : idv.truthy = true
    · refine ⟨idv, nm, rfl, h, ?_⟩
      rw [assembleUserState_obj_eq store idv nm h] at hok
      injection hok with h2
      exact h2 ▸ rfl
    · rw [assembleUserState_not_truthy store idv nm
        (Bool.not_eq_true _ ▸ h)] at hok
      cases hok

/-- `[ownUser, ...additionalUsers].filter(Boolean)` keeps the own document
when present and always keeps the queried documents. -/
lemma assembleUsersList_eq (o : Option User) (l : List User) :
    assembleUsersList o l = o.toList ++ l := by
  cases o <;> simp [assembleUsersList]

/-- A membership query with an empty filter list matches no comment. -/
lemma commentsQuery_nil (store : Store) : commentsQuery store [] = [] := by
  simp [commentsQuery]

/-- Every task returned by the task query carries the queried owner id. -/
lemma tasksQuery_owner_eq (store : Store) (s : String) :
    ∀ t ∈ tasksQuery store (.str s), t.owner = s := by
  intro t ht
  have := List.of_mem_filter ht
  simpa using this

/-- The owner-identifier list for tasks that all share a nonempty owner `s`
is `s` repeated once per task — the comments array contributes nothing. -/
lemma userOwners_replicate (s : String) (hs : s ≠ "") (tasks : List Task)
    (h : ∀ t ∈ tasks, t.owner = s) (cs : List Comment) :
    userOwners tasks cs = List.replicate tasks.length (JsVal.str s) := by
  induction tasks with
  | nil => simp [userOwners, spreadTasksComments, ownerOf, JsVal.truthy]
  | cons t ts ih =>
    have ht : t.owner = s := h t (by simp)
    have h2 : ∀ x ∈ ts, x.owner = s := fun x hx => h x (by simp [hx])
    have step : userOwners (t :: ts) cs = JsVal.str s :: userOwners ts cs := by
      simp [userOwners, spreadTasksComments, ownerOf, JsVal.truthy, ht, hs]
    rw [step, ih h2, List.length_cons, List.replicate_succ]

/-- A request without a username matches no user document. -/
lemma findOneUserByName_no_username (store : Store) :
    findOneUserByName store none = none := by
  simp [findOneUserByName]

/-! ## Concrete documents used by the witnesses (the fixture data of the
repository's utility test suite) -/

def demoUser1 : User := { id := "user-1", name := "Test User", passwordHash := "h1" }

def demoUser2 : User := { id := "user-2", name := "Another User", passwordHash := "h2" }

def demoTask1 : Task :=
  { id := "task-1", name := "Task 1", isComplete := false, owner := "user-1", group := none }

def demoTask2 : Task :=
  { id := "task-2", name := "Task 2", isComplete := false, owner := "user-1", group := none }

def demoComment1 : Comment :=
  { id := "comment-1", task := "task-1", owner := "user-2", content := "c1" }

def demoComment2 : Comment :=
  { id := "comment-2", task := "task-2", owner := "user-1", content := "c2" }

def demoGroup1 : Group := { id := "group-1", owner := "user-1", name := "Work" }

def demoGroup2 : Group := { id := "group-2", owner := "user-1", name := "Personal" }

def demoStore : Store :=
  { tasks := [demoTask1, demoTask2]
    comments := [demoComment1, demoComment2]
    users := [demoUser1, demoUser2]
    groups := [demoGroup1, demoGroup2] }

/-- The state `assembleUserState` assembles for `user-1` over `demoStore`:
the own document appears twice in `users` (once from the own lookup, once
from the task owners), and `user-2` — who only owns a comment — is absent. -/
def demoState : UserState :=
  { session := { authenticated := "AUTHENTICATED", id := .str "user-1" }
    groups := [demoGroup1, demoGroup2]
    tasks := [demoTask1, demoTask2]
    users := [demoUser1, demoUser1]
    comments := [demoComment1, demoComment2] }

def authUser : User :=
  { id := "user-1", name := "testuser", passwordHash := hashPassword "password123" }

def authStore : Store := { tasks := [], comments := [], users := [authUser], groups := [] }

/-- The state assembled on a successful login of `authUser` over `authStore`. -/
def authState : UserState :=
  { session := { authenticated := "AUTHENTICATED", id := .str "user-1" }
    groups := [], tasks := [], users := [authUser], comments := [] }

def emptyStore : Store := { tasks := [], comments := [], users := [], groups := [] }

/-- The state assembled for a freshly registered user over the store holding
only the new user document and the default group. -/
def regState : UserState :=
  { session := { authenticated := "AUTHENTICATED", id := .str "user-123" }
    groups := [{ id := "group-456", owner := "user-123", name := "To Do" }]
    tasks := []
    users := [{ id := "user-123", name := "newuser", passwordHash := hashPassword "password123" }]
    comments := [] }

/-! ## Claim theorems -/

/-- C1: for a user whose id is the nonempty string `s`, the owner-identifier
list built from the task-query result (all of whose tasks are owned by that
user) has exactly one entry per task, every entry equal to the user's id,
duplicates preserved; the comments list contributes nothing — its single
`undefined` pseudo-entry is dropped by the truthiness filter, so the list is
the same for every comments list `cs`. -/
theorem userOwners_tasksQuery_replicate (store : Store) (s : String)
    (hs : s ≠ "") (cs : List Comment) :
    userOwners (tasksQuery store (.str s)) cs
      = List.replicate (tasksQuery store (.str s)).length (JsVal.str s) :=
  userOwners_replicate s hs _ (tasksQuery_owner_eq store s) cs

theorem userOwners_tasksQuery_replicate_witness :
    userOwners (tasksQuery demoStore (.str "user-1")) demoStore.comments
      = List.replicate (tasksQuery demoStore (.str "user-1")).length
          (JsVal.str "user-1") :=
  userOwners_tasksQuery_replicate demoStore "user-1" (by decide)
    demoStore.comments

/-- C2: every state returned by `assembleUserState` has exactly the store's
tasks owned by the user, the store's comments whose `task` is among those
task ids, the store's groups owned by the user, and the session record
`{authenticated: "AUTHENTICATED", id: user.id}`. -/
theorem assembleUserState_invariants (store : Store) (idv : JsVal)
    (nm : Option String) (st : UserState)
    (hok : assembleUserState store (.obj idv nm) = .ok st) :
    st.tasks = store.tasks.filter (fun t => JsVal.str t.owner == idv) ∧
    st.comments = store.comments.filter
      (fun c => (st.tasks.map Task.id).contains c.task) ∧
    st.groups = store.groups.filter (fun g => JsVal.str g.owner == idv) ∧
    st.session = { authenticated := "AUTHENTICATED", id := idv } := by
  by_cases htr : idv.truthy = true
  · rw [assembleUserState_obj_eq store idv nm htr] at hok
    injection hok with h3
    subst h3
    exact ⟨rfl, rfl, rfl, rfl⟩
  · rw [assembleUserState_not_truthy store idv nm
      (Bool.not_eq_true _ ▸ htr)] at hok
    cases hok

theorem assembleUserState_invariants_witness :
    demoState.tasks
        = demoStore.tasks.filter (fun t => JsVal.str t.owner == JsVal.str "user-1") ∧
    demoState.comments = demoStore.comments.filter
        (fun c => (demoState.tasks.map Task.id).contains c.task) ∧
    demoState.groups
        = demoStore.groups.filter (fun g => JsVal.str g.owner == JsVal.str "user-1") ∧
    demoState.session = { authenticated := "AUTHENTICATED", id := JsVal.str "user-1" } :=
  assembleUserState_invariants demoStore (JsVal.str "user-1") none demoState
    (by rfl)

/-- C3: the login handler classifies its outcome in order — a missing
username, like any lookup miss, yields `"User not found"`; a found user with
a failing hash comparison yields `"Password incorrect"`; otherwise the fresh
token is appended to the token store paired with the user's id and the
handler returns the token with the assembled state for that user. -/
theorem login_classification (store : Store) (b : AuthBody) (tok : String)
    (tokens : List TokenPair) :
    (b.username = none →
        login store (some b) tok tokens = (.userNotFound, tokens)) ∧
    (findOneUserByName store b.username = none →
        login store (some b) tok tokens = (.userNotFound, tokens)) ∧
    (∀ u, findOneUserByName store b.username = some u →
        checkPassword b.password u.passwordHash = false →
        login store (some b) tok tokens = (.passwordIncorrect, tokens)) ∧
    (∀ u st, findOneUserByName store b.username = some u →
        checkPassword b.password u.passwordHash = true →
        assembleUserState store (.obj (.str u.id) (some u.name)) = .ok st →
        login store (some b) tok tokens =
          (.success tok st, tokens ++ [{ token := tok, userID := u.id }])) := by
  refine ⟨?_, ?_, ?_, ?_⟩
  · intro hu
    simp [login, hu, findOneUserByName_no_username]
  · intro hn
    simp [login, hn]
  · intro u hu hpw
    simp [login, hu, hpw]
  · intro u st hu hpw hok
    simp [login, hu, hpw, hok]

theorem login_classification_witness :
    login authStore
        (some { username := some "testuser", password := some "password123" })
        "tok-1" []
      = (.success "tok-1" authState, [{ token := "tok-1", userID := "user-1" }]) :=
  (login_classification authStore
      { username := some "testuser", password := some "password123" }
      "tok-1" []).2.2.2 authUser authState (by rfl) (by rfl) (by rfl)

/-- C4: registering an unused username inserts exactly the new user document
and one default `"To Do"` group owned by the fresh user id, calls the
assembler with the minimal `{id, name}` object over the mutated store, and
answers with that user id and a state whose session carries it. -/
theorem register_creates_user_and_group (store : Store)
    (username password userId groupId : String) (st : UserState)
    (hnone : findOneUserByName store (some username) = none)
    (hok : assembleUserState
        { store with
            users := store.users ++
              [{ id := userId, name := username, passwordHash := hashPassword password }]
            groups := store.groups ++
              [{ id := groupId, owner := userId, name := "To Do" }] }
        (.obj (.str userId) (some username)) = .ok st) :
    register store username password userId groupId =
      (.created userId st,
       { store with
           users := store.users ++
             [{ id := userId, name := username, passwordHash := hashPassword password }]
           groups := store.groups ++
             [{ id := groupId, owner := userId, name := "To Do" }] }) ∧
    st.session = { authenticated := "AUTHENTICATED", id := .str userId } := by
  constructor
  · simp [register, hnone, hok]
  · obtain ⟨idv, nm, heq, htr, hsess⟩ := assembleUserState_ok_inv _ _ _ hok
    injection heq with h1 h2
    rw [hsess, ← h1]

theorem register_creates_user_and_group_witness :
    register emptyStore "newuser" "password123" "user-123" "group-456" =
      (.created "user-123" regState,
       { emptyStore with
           users := emptyStore.users ++
             [{ id := "user-123", name := "newuser",
                passwordHash := hashPassword "password123" }]
           groups := emptyStore.groups ++
             [{ id := "group-456", owner := "user-123", name := "To Do" }] }) ∧
    regState.session = { authenticated := "AUTHENTICATED", id := .str "user-123" } :=
  register_creates_user_and_group emptyStore "newuser" "password123"
    "user-123" "group-456" regState (by rfl) (by rfl)

/-- C5: registering a username that already names a user answers with the
duplicate-account message and returns the store untouched — the duplicate
check precedes both inserts. -/
theorem register_duplicate_conflict (store : Store)
    (username password userId groupId : String) (u : User)
    (hfound : findOneUserByName store (some username) = some u) :
    register store username password userId groupId =
      (.conflict duplicateUserMsg, store) := by
  simp [register, hfound]

theorem register_duplicate_conflict_witness :
    register authStore "testuser" "password123" "user-9" "group-9" =
      (.conflict duplicateUserMsg, authStore) :=
  register_duplicate_conflict authStore "testuser" "password123" "user-9"
    "group-9" authUser (by rfl)

/-- C6: `assembleUserState` rejects `null`, `undefined`, and an object whose
missing `id` field reads as `undefined`, failing with the validation error;
the trace of issued store operations is empty in each case — the failure
happens before any connection is acquired or query issued. -/
theorem assembleUserState_invalid_rejected_before_store (store : Store)
    (nm : Option String) :
    assembleUserStateTraced store .jsNull = (.error userRequiredMsg, []) ∧
    assembleUserStateTraced store .jsUndefined = (.error userRequiredMsg, []) ∧
    assembleUserStateTraced store (.obj .undefined nm) = (.error userRequiredMsg, []) :=
  ⟨rfl, rfl, rfl⟩

/-- C7: when the task query returns no task, the comment query is still
issued with the empty membership filter — it appears in the operation trace —
and the assembled state's comments list is empty. -/
theorem comment_query_issued_when_no_tasks (store : Store) (idv : JsVal)
    (nm : Option String) (htr : idv.truthy = true)
    (hempty : tasksQuery store idv = []) :
    StoreOp.findComments [] ∈ (assembleUserStateTraced store (.obj idv nm)).2 ∧
    ∃ st, assembleUserState store (.obj idv nm) = .ok st ∧ st.comments = [] := by
  rw [assembleUserStateTraced_obj_eq store idv nm htr]
  constructor
  · simp [hempty]
  · exact ⟨_, assembleUserState_obj_eq store idv nm htr,
      by simp [hempty, commentsQuery_nil]⟩

theorem comment_query_issued_when_no_tasks_witness :
    StoreOp.findComments []
        ∈ (assembleUserStateTraced demoStore (.obj (.str "user-99") none)).2 ∧
    ∃ st, assembleUserState demoStore (.obj (.str "user-99") none) = .ok st ∧
      st.comments = [] :=
  comment_query_issued_when_no_tasks demoStore (.str "user-99") none
    (by decide) (by decide)

/-- C8: the `users` field of a successful call is the own-document lookup
result followed by the membership-query result with the possible `null`
dropped; in particular an own-lookup miss does not fail the call — the state
is still assembled and the miss leaves only the membership-query documents. -/
theorem users_list_assembly (store : Store) (idv : JsVal) (nm : Option String)
    (htr : idv.truthy = true) :
    ∃ st, assembleUserState store (.obj idv nm) = .ok st ∧
      st.users = (findOneUserById store idv).toList ++
        usersInQuery store (userOwners (tasksQuery store idv)
          (commentsQuery store ((tasksQuery store idv).map Task.id))) ∧
      (findOneUserById store idv = none →
        st.users = usersInQuery store (userOwners (tasksQuery store idv)
          (commentsQuery store ((tasksQuery store idv).map Task.id)))) := by
  refine ⟨_, assembleUserState_obj_eq store idv nm htr, ?_, ?_⟩
  · simp [assembleUsersList_eq]
  · intro hnone
    simp [assembleUsersList_eq, hnone]

theorem users_list_assembly_witness :
    ∃ st, assembleUserState demoStore (.obj (JsVal.str "ghost") none) = .ok st ∧
      st.users = (findOneUserById demoStore (JsVal.str "ghost")).toList ++
        usersInQuery demoStore (userOwners (tasksQuery demoStore (JsVal.str "ghost"))
          (commentsQuery demoStore
            ((tasksQuery demoStore (JsVal.str "ghost")).map Task.id))) ∧
      (findOneUserById demoStore (JsVal.str "ghost") = none →
        st.users = usersInQuery demoStore
          (userOwners (tasksQuery demoStore (JsVal.str "ghost"))
            (commentsQuery demoStore
              ((tasksQuery demoStore (JsVal.str "ghost")).map Task.id)))) :=
  users_list_assembly demoStore (JsVal.str "ghost") none (by decide)

/-- C9: `hashPassword` is deterministic, `verifyPassword p h` holds exactly
when `hashPassword p = h`, hence the round trip verifies and a plaintext
whose hash differs from the stored one is rejected. -/
theorem password_hash_properties :
    (∀ p q : String, p = q → hashPassword p = hashPassword q) ∧
    (∀ p h : String, verifyPassword p h = true ↔ hashPassword p = h) ∧
    (∀ p : String, verifyPassword p (hashPassword p) = true) ∧
    (∀ p q : String, hashPassword q ≠ hashPassword p →
        verifyPassword q (hashPassword p) = false) := by
  refine ⟨fun p q h => by rw [h], fun p h => ?_, fun p => ?_, fun p q h => ?_⟩
  · simp [verifyPassword]
  · simp [verifyPassword]
  · simp [verifyPassword, h]

theorem password_hash_properties_witness :
    verifyPassword "p" (hashPassword "p") = true ∧
    verifyPassword "q" (hashPassword "p") = false :=
  ⟨password_hash_properties.2.2.1 "p",
   password_hash_properties.2.2.2 "p" "q" (by decide)⟩

/-- C10: every falsy id — empty string, `0`, `false`, `null`, `undefined` —
is rejected with the same validation error as a missing id, and consequently
the session id of every successfully assembled state is truthy. -/
theorem falsy_id_rejected :
    (∀ (store : Store) (nm : Option String) (idv : JsVal),
        idv.truthy = false →
        assembleUserState store (.obj idv nm) = .error userRequiredMsg) ∧
    (∀ (store : Store) (u : UserInput) (st : UserState),
        assembleUserState store u = .ok st → st.session.id.truthy = true) := by
  constructor
  · intro store nm idv h
    exact assembleUserState_not_truthy store idv nm h
  · intro store u st hok
    obtain ⟨idv, nm2, heq, htr, hsess⟩ := assembleUserState_ok_inv store u st hok
    rw [hsess]
    exact htr

theorem falsy_id_rejected_witness :
    assembleUserState demoStore (.obj (JsVal.str "") none) = .error userRequiredMsg ∧
    assembleUserState demoStore (.obj (JsVal.num 0) none) = .error userRequiredMsg ∧
    assembleUserState demoStore (.obj (JsVal.bool false) none) = .error userRequiredMsg ∧
    assembleUserState demoStore (.obj JsVal.null none) = .error userRequiredMsg ∧
    demoState.session.id.truthy = true :=
  ⟨falsy_id_rejected.1 demoStore none (JsVal.str "") (by decide),
   falsy_id_rejected.1 demoStore none (JsVal.num 0) (by decide),
   falsy_id_rejected.1 demoStore none (JsVal.bool false) (by decide),
   falsy_id_rejected.1 demoStore none JsVal.null (by decide),
   falsy_id_rejected.2 demoStore (.obj (JsVal.str "user-1") none) demoState
     (by rfl)⟩

end Organizer
